import Mathlib

/-
  Verification of the agent-access-control reconciliation engine.

  Shallow embedding of the Go sources:
  - internal/controller/agentcard_controller.go (AgentCard reconciler + builders.go)
  - internal/controller/agentpolicy_controller.go (AgentPolicy reconciler)
  - api/v1alpha1 record types (AgentCard types are in the sources; the
    AgentPolicy types file is reconstructed from its uses in the controllers
    and the documented schema).

  Kubernetes client calls (Get/List/Create/Update) are modelled by explicit
  environments prescribing each call's outcome, and reconciles produce a
  trace of attempted operations plus the status they write.
-/

namespace AgentAccessControl

/-! ## Label maps and the selector matcher -/

/-- A Go `map[string]string`, modelled as an association list. -/
abbrev Labels := List (String × String)

/-- Lookup of a key in a label map: `some v` when present. -/
def lookupKey (m : Labels) (k : String) : Option String :=
  (m.find? (fun p => p.1 == k)).map Prod.snd

/-- Go map indexing `m[k]`: an absent key reads as the zero value `""`. -/
def lookupGo (m : Labels) (k : String) : String :=
  (lookupKey m k).getD ""

/-- `labelsMatchSelector` from agentpolicy_controller.go: for each selector
entry, Go compares `objectLabels[key] != val` (zero-value lookup). -/
def labelsMatchSelector (objectLabels selectorLabels : Labels) : Bool :=
  selectorLabels.all (fun p => lookupGo objectLabels p.1 == p.2)

/-! ## Object metadata and record types -/

/-- An owner reference as set by `setOwnerRef` / `setUnstructuredOwnerRef`. -/
structure OwnerReference where
  apiVersion : String
  kind : String
  name : String
  uid : String
  controller : Bool
  blockOwnerDeletion : Bool
deriving Repr, DecidableEq

/-- The slice of ObjectMeta the controllers read and write.
`deletionSet` models `DeletionTimestamp.IsZero() == false`. -/
structure Meta where
  name : String
  ns : String
  uid : String
  labels : Labels
  finalizers : List String
  deletionSet : Bool
  ownerRefs : List OwnerReference
deriving Repr, DecidableEq

/-- `controllerutil.ContainsFinalizer`. -/
def containsFinalizer (m : Meta) (f : String) : Bool :=
  m.finalizers.any (fun x => x == f)

/-- `AgentSkill` from api/v1alpha1. -/
structure AgentSkill where
  name : String
  description : String
deriving Repr, DecidableEq

/-- `AgentCardSpec` from api/v1alpha1 (servicePort is an int32). -/
structure AgentCardSpec where
  description : String
  skills : List AgentSkill
  protocols : List String
  servicePort : Int
deriving Repr, DecidableEq

/-- `AgentCard` record. -/
structure AgentCard where
  meta : Meta
  spec : AgentCardSpec
deriving Repr, DecidableEq

/-- `IngressPolicy`: reconstructed from its uses (`policy.Spec.Ingress.AllowedAgents`)
and the documented schema (`ingress.allowedAgents`, `ingress.allowedUsers`). -/
structure IngressPolicy where
  allowedAgents : List String
  allowedUsers : List String
deriving Repr, DecidableEq

/-- `RateLimitSpec`: reconstructed from `policy.Spec.RateLimit.RequestsPerMinute`. -/
structure RateLimitSpec where
  requestsPerMinute : Int
deriving Repr, DecidableEq

/-- `ExternalRule`: reconstructed from BuildSidecarConfigMap's field copies.
`headerPfx` stands for the Go field HeaderPrefix. -/
structure ExternalRule where
  host : String
  mode : String
  vaultPath : String
  audience : String
  scopes : List String
  header : String
  headerPfx : String
deriving Repr, DecidableEq

/-- `ExternalPolicy`: reconstructed from `policy.Spec.External.{DefaultMode,Rules}`. -/
structure ExternalPolicy where
  defaultMode : String
  rules : List ExternalRule
deriving Repr, DecidableEq

/-- `GeneratedResourceRef` recorded in AgentPolicy status. -/
structure GeneratedResourceRef where
  kind : String
  name : String
deriving Repr, DecidableEq

/-- The AgentPolicy status fields the reconciler writes. -/
structure AgentPolicyStatus where
  matchedAgentCards : Nat
  generatedResources : List GeneratedResourceRef
deriving Repr, DecidableEq

/-- `AgentPolicySpec`: reconstructed from the controllers' uses; optional
sections are nil-able pointers in Go, hence `Option`. -/
structure AgentPolicySpec where
  agentSelector : Labels
  ingress : Option IngressPolicy
  agents : List String
  external : Option ExternalPolicy
  rateLimit : Option RateLimitSpec
deriving Repr, DecidableEq

/-- `AgentPolicy` record. -/
structure AgentPolicy where
  meta : Meta
  spec : AgentPolicySpec
  status : AgentPolicyStatus
deriving Repr, DecidableEq

/-! ## Common labels and owner references (builders.go) -/

def labelManagedBy : String := "kagenti.com/managed-by"

def labelAgentCard : String := "kagenti.com/agent-card"

def managedByValue : String := "agent-access-control"

/-- `commonLabels` from builders.go. -/
def commonLabels (cardName : String) : Labels :=
  [(labelManagedBy, managedByValue), (labelAgentCard, cardName)]

/-- The single controller owner reference installed by `setOwnerRef` and
`setUnstructuredOwnerRef` (apiVersion is group/version). -/
def ownerRefOf (owner : Meta) (apiVersion kind : String) : OwnerReference :=
  { apiVersion := apiVersion, kind := kind, name := owner.name, uid := owner.uid,
    controller := true, blockOwnerDeletion := true }

/-- Metadata stamped on a generated resource: name, namespace, common labels
and exactly one owner reference. -/
def generatedMeta (name ns cardName : String) (owner : Meta) (ownerKind : String) : Meta :=
  { name := name, ns := ns, uid := "", labels := commonLabels cardName,
    finalizers := [], deletionSet := false,
    ownerRefs := [ownerRefOf owner "kagenti.com/v1alpha1" ownerKind] }

/-! ## HTTPRoute builder -/

structure ParentReference where
  group : String
  kind : String
  ns : String
  name : String
deriving Repr, DecidableEq

structure HTTPPathMatch where
  matchType : String
  value : String
deriving Repr, DecidableEq

structure HTTPBackendRef where
  name : String
  port : Int
deriving Repr, DecidableEq

structure HTTPRouteRule where
  ruleMatches : List HTTPPathMatch
  backendRefs : List HTTPBackendRef
deriving Repr, DecidableEq

structure HTTPRouteSpec where
  parentRefs : List ParentReference
  rules : List HTTPRouteRule
deriving Repr, DecidableEq

structure HTTPRoute where
  apiVersion : String
  kind : String
  meta : Meta
  spec : HTTPRouteSpec
deriving Repr, DecidableEq

/-- `BuildHTTPRoute` from builders.go. -/
def BuildHTTPRoute (card : AgentCard) (gatewayName gatewayNamespace : String) : HTTPRoute :=
  let port : Int := if card.spec.servicePort == 0 then 8080 else card.spec.servicePort
  let pathValue := "/agents/" ++ card.meta.name
  let svcName := card.meta.name ++ "-svc"
  { apiVersion := "gateway.networking.k8s.io/v1"
    kind := "HTTPRoute"
    meta := generatedMeta ("agent-" ++ card.meta.name) card.meta.ns card.meta.name
              card.meta "AgentCard"
    spec :=
      { parentRefs := [{ group := "gateway.networking.k8s.io", kind := "Gateway",
                         ns := gatewayNamespace, name := gatewayName }]
        rules := [{ ruleMatches := [{ matchType := "PathPrefix", value := pathValue }]
                    backendRefs := [{ name := svcName, port := port }] }] } }

/-! ## AuthPolicy builder -/

/-- Split a character list at the first slash, Go `strings.SplitN(s, "/", 2)`
when `strings.Contains(s, "/")`. -/
def splitFirstSlash : List Char → Option (List Char × List Char)
  | [] => none
  | c :: rest =>
    if c = '/' then some ([], rest)
    else
      match splitFirstSlash rest with
      | some (a, b) => some (c :: a, b)
      | none => none

/-- `resolveServiceAccount` from builders.go: with a slash, the embedded
namespace is used; otherwise the policy namespace. -/
def resolveServiceAccount (name policyNamespace : String) : String :=
  match splitFirstSlash name.toList with
  | some (a, b) =>
      "system:serviceaccount:" ++ String.mk a ++ ":" ++ String.mk b
  | none => "system:serviceaccount:" ++ policyNamespace ++ ":" ++ name

/-- One pattern-matching authorization predicate. -/
structure Pattern where
  selector : String
  operator : String
  value : String
deriving Repr, DecidableEq

/-- The AuthPolicy unstructured document, as a record of the fields
BuildAuthPolicy writes. -/
structure AuthPolicy where
  apiVersion : String
  kind : String
  meta : Meta
  targetRefGroup : String
  targetRefKind : String
  targetRefName : String
  issuerUrl : String
  patterns : List Pattern
deriving Repr, DecidableEq

/-- `BuildAuthPolicy` from builders.go. -/
def BuildAuthPolicy (policy : AgentPolicy) (card : AgentCard) (httpRouteName : String) :
    AuthPolicy :=
  let predicates : List Pattern :=
    match policy.spec.ingress with
    | some ing =>
        ing.allowedAgents.map (fun agent =>
          { selector := "auth.identity.sub", operator := "eq",
            value := resolveServiceAccount agent policy.meta.ns })
    | none => []
  { apiVersion := "kuadrant.io/v1"
    kind := "AuthPolicy"
    meta := generatedMeta ("ap-" ++ card.meta.name) policy.meta.ns card.meta.name
              policy.meta "AgentPolicy"
    targetRefGroup := "gateway.networking.k8s.io"
    targetRefKind := "HTTPRoute"
    targetRefName := httpRouteName
    issuerUrl := "https://issuer.example.com"
    patterns := predicates }

/-! ## RateLimitPolicy builder -/

structure Rate where
  limit : Int
  window : String
deriving Repr, DecidableEq

structure RateLimitPolicy where
  apiVersion : String
  kind : String
  meta : Meta
  targetRefGroup : String
  targetRefKind : String
  targetRefName : String
  rates : List Rate
deriving Repr, DecidableEq

/-- `BuildRateLimitPolicy` from builders.go (default 60 when no rate section). -/
def BuildRateLimitPolicy (policy : AgentPolicy) (card : AgentCard) (httpRouteName : String) :
    RateLimitPolicy :=
  let rpm : Int :=
    match policy.spec.rateLimit with
    | some rl => rl.requestsPerMinute
    | none => 60
  { apiVersion := "kuadrant.io/v1"
    kind := "RateLimitPolicy"
    meta := generatedMeta ("rlp-" ++ card.meta.name) policy.meta.ns card.meta.name
              policy.meta "AgentPolicy"
    targetRefGroup := "gateway.networking.k8s.io"
    targetRefKind := "HTTPRoute"
    targetRefName := httpRouteName
    rates := [{ limit := rpm, window := "1m" }] }

/-! ## Sidecar ConfigMap builder -/

structure SidecarGateway where
  host : String
  mode : String
deriving Repr, DecidableEq

/-- `sidecarExternalRule`; `headerPfx` stands for the Go field HeaderPrefix. -/
structure SidecarExternalRule where
  host : String
  mode : String
  vaultPath : String
  audience : String
  scopes : List String
  header : String
  headerPfx : String
deriving Repr, DecidableEq

structure SidecarExternal where
  rules : List SidecarExternalRule
  defaultMode : String
deriving Repr, DecidableEq

structure SidecarConfig where
  gateway : SidecarGateway
  allowedAgents : List String
  external : SidecarExternal
deriving Repr, DecidableEq

/-- The generated ConfigMap. `config` is the structured document stored under
the data key "config.yaml"; YAML serialization is abstracted (it cannot fail
for this fixed struct shape, so the Go error branch is unreachable). -/
structure ConfigMap where
  apiVersion : String
  kind : String
  meta : Meta
  config : SidecarConfig
deriving Repr, DecidableEq

/-- `BuildSidecarConfigMap` from builders.go. -/
def BuildSidecarConfigMap (policy : AgentPolicy) (card : AgentCard) : ConfigMap :=
  let ext : SidecarExternal :=
    match policy.spec.external with
    | some e =>
        { defaultMode := e.defaultMode
          rules := e.rules.map (fun r =>
            { host := r.host, mode := r.mode, vaultPath := r.vaultPath,
              audience := r.audience, scopes := r.scopes, header := r.header,
              headerPfx := r.headerPfx }) }
    | none => { rules := [], defaultMode := "" }
  { apiVersion := "v1"
    kind := "ConfigMap"
    meta := generatedMeta ("sidecar-config-" ++ card.meta.name) card.meta.ns card.meta.name
              policy.meta "AgentPolicy"
    config :=
      { gateway := { host := "agent-gateway." ++ card.meta.ns ++ ".svc.cluster.local",
                     mode := "passthrough" }
        allowedAgents := policy.spec.agents
        external := ext } }

/-! ## MCPServerRegistration builder -/

/-- The MCPServerRegistration unstructured document. `toolPfx` stands for the
Go spec field toolPrefix. -/
structure MCPServerRegistration where
  apiVersion : String
  kind : String
  meta : Meta
  targetRefGroup : String
  targetRefKind : String
  targetRefName : String
  toolPfx : String
  path : String
deriving Repr, DecidableEq

/-- `BuildMCPServerRegistration` from builders.go. -/
def BuildMCPServerRegistration (card : AgentCard) (httpRouteName : String) :
    MCPServerRegistration :=
  { apiVersion := "mcp.kagenti.com/v1alpha1"
    kind := "MCPServerRegistration"
    meta := generatedMeta ("mcp-" ++ card.meta.name) card.meta.ns card.meta.name
              card.meta "AgentCard"
    targetRefGroup := "gateway.networking.k8s.io"
    targetRefKind := "HTTPRoute"
    targetRefName := httpRouteName
    toolPfx := card.meta.name ++ "_"
    path := "/mcp" }

/-! ## NetworkPolicy builder -/

structure NetworkPolicyPort where
  port : Int
  protocol : String
deriving Repr, DecidableEq

/-- An egress peer; `namespaceSelector := some []` is the empty selector,
which selects every namespace in the cluster. -/
structure NetworkPolicyPeer where
  namespaceSelector : Option Labels
deriving Repr, DecidableEq

structure NetworkPolicyEgressRule where
  ports : List NetworkPolicyPort
  toPeers : List NetworkPolicyPeer
deriving Repr, DecidableEq

structure NetworkPolicySpec where
  podSelector : Labels
  policyTypes : List String
  egress : List NetworkPolicyEgressRule
deriving Repr, DecidableEq

structure NetworkPolicy where
  apiVersion : String
  kind : String
  meta : Meta
  spec : NetworkPolicySpec
deriving Repr, DecidableEq

/-- `BuildNetworkPolicy` from builders.go: DNS rule (UDP+TCP port 53, no
peers so unconditional) plus an any-namespace in-cluster rule. -/
def BuildNetworkPolicy (policy : AgentPolicy) (card : AgentCard) : NetworkPolicy :=
  let dnsEgressRule : NetworkPolicyEgressRule :=
    { ports := [{ port := 53, protocol := "UDP" }, { port := 53, protocol := "TCP" }]
      toPeers := [] }
  let gatewayEgressRule : NetworkPolicyEgressRule :=
    { ports := []
      toPeers := [{ namespaceSelector := some [] }] }
  { apiVersion := "networking.k8s.io/v1"
    kind := "NetworkPolicy"
    meta := generatedMeta ("egress-" ++ card.meta.name) card.meta.ns card.meta.name
              policy.meta "AgentPolicy"
    spec :=
      { podSelector := [("kagenti.com/agent-card", card.meta.name)]
        policyTypes := ["Egress"]
        egress := [dnsEgressRule, gatewayEgressRule] } }

/-- `containsProtocol` from agentcard_controller.go. -/
def containsProtocol (protocols : List String) (target : String) : Bool :=
  protocols.any (fun p => p == target)

/-! ## Diff/Apply layer: createOrUpdateUnstructured over an explicit store -/

/-- An unstructured stored object, keyed by (apiVersion, kind, namespace,
name); `payload` is the opaque rest of the document. -/
structure Unstructured where
  apiVersion : String
  kind : String
  ns : String
  name : String
  resourceVersion : String
  payload : String
deriving Repr, DecidableEq

/-- Same GroupVersionKind and NamespacedName, the lookup key used by the
Get before create-or-update. -/
def sameKey (a b : Unstructured) : Bool :=
  a.apiVersion == b.apiVersion && a.kind == b.kind && a.ns == b.ns && a.name == b.name

/-- Outcome of one create-or-update call. `skipped` (a detected no-op,
no write issued) is expressible but never produced by the code. -/
inductive WriteAction
  | created
  | updated
  | skipped
deriving Repr, DecidableEq

/-- Whether a write was issued to the platform. -/
def WriteAction.isWrite : WriteAction → Bool
  | .skipped => false
  | _ => true

/-- `createOrUpdateUnstructured` from both controllers: Get by key; when
absent, Create; when present, copy the stored resourceVersion onto the
desired value and Update. No field comparison is performed. -/
def createOrUpdateUnstructured (store : List Unstructured) (desired : Unstructured) :
    List Unstructured × WriteAction :=
  match store.find? (fun o => sameKey o desired) with
  | none => (store ++ [desired], WriteAction.created)
  | some existing =>
      let d := { desired with resourceVersion := existing.resourceVersion }
      (store.map (fun o => if sameKey o desired then d else o), WriteAction.updated)

/-- Apply the same desired value twice in succession, returning both
actions. -/
def applyTwice (store : List Unstructured) (desired : Unstructured) :
    WriteAction × WriteAction :=
  let r1 := createOrUpdateUnstructured store desired
  let r2 := createOrUpdateUnstructured r1.1 desired
  (r1.2, r2.2)

/-- Number of writes issued by a pair of apply calls. -/
def writeCount (p : WriteAction × WriteAction) : Nat :=
  (if p.1.isWrite then 1 else 0) + (if p.2.isWrite then 1 else 0)

/-! ## Degradation classifiers -/

/-- The error classes the controllers distinguish: `noMatch` is
`meta.IsNoMatchError` (kind not registered), `notFound` is
`apierrors.IsNotFound`, `other` is any other failure. -/
inductive K8sErr
  | noMatch
  | notFound
  | other
deriving Repr, DecidableEq

/-- `isCRDNotFound` from agentcard_controller.go: no-match errors, with
IsNotFound as a fallback. `none` models a nil error. -/
def isCRDNotFound : Option K8sErr → Bool
  | some K8sErr.noMatch => true
  | some K8sErr.notFound => true
  | _ => false

/-- `isCRDNotFoundPolicy` from agentpolicy_controller.go: only no-match
errors. -/
def isCRDNotFoundPolicy : Option K8sErr → Bool
  | some K8sErr.noMatch => true
  | _ => false

/-! ## Operation traces -/

/-- One platform operation attempted by a reconcile. Downstream writes carry
the written kind and name; `deleteRes` exists so that its absence from every
trace is expressible. -/
inductive Op
  | createRes (resKind name : String)
  | updateRes (resKind name : String)
  | deleteRes (resKind name : String)
  | updatePrimary (resKind name : String)
  | statusUpdate (resKind name : String)
deriving Repr, DecidableEq

/-- Whether the operation is an explicit delete. -/
def Op.isDelete : Op → Bool
  | .deleteRes _ _ => true
  | _ => false

/-- The downstream kind written by a create/update/delete, if any. -/
def Op.writeKind : Op → Option String
  | .createRes k _ => some k
  | .updateRes k _ => some k
  | .deleteRes k _ => some k
  | _ => none

/-- Whether the operation writes a downstream record. -/
def Op.isDownstreamWrite (op : Op) : Bool :=
  op.writeKind.isSome

/-- Environment for one create-or-update call inside a reconcile: whether
the preceding Get found a stored object (update path vs create path) and
the error the whole call returned (none on success). -/
structure ApplyEnv where
  stored : Bool
  result : Option K8sErr
deriving Repr, DecidableEq

/-- The write attempted by a create-or-update call. -/
def applyOpFor (resKind name : String) (env : ApplyEnv) : Op :=
  if env.stored then Op.updateRes resKind name else Op.createRes resKind name

/-- Outcome of fetching a primary record. -/
inductive FetchOutcome (α : Type)
  | notFound
  | errFetch
  | found (a : α)
deriving Repr, DecidableEq

/-! ## AgentPolicy reconciler -/

def agentPolicyFinalizer : String := "kagenti.com/agentpolicy-finalizer"

def agentCardFinalizer : String := "kagenti.com/agentcard-finalizer"

/-- Equality on Except results is decidable componentwise. -/
def exceptDecEq {ε α : Type} [DecidableEq ε] [DecidableEq α] :
    (a b : Except ε α) → Decidable (a = b)
  | Except.error x, Except.error y =>
      if h : x = y then Decidable.isTrue (by rw [h])
      else Decidable.isFalse (by intro hc; cases hc; exact h rfl)
  | Except.error _, Except.ok _ => Decidable.isFalse (by intro hc; cases hc)
  | Except.ok _, Except.error _ => Decidable.isFalse (by intro hc; cases hc)
  | Except.ok x, Except.ok y =>
      if h : x = y then Decidable.isTrue (by rw [h])
      else Decidable.isFalse (by intro hc; cases hc; exact h rfl)

instance {ε α : Type} [DecidableEq ε] [DecidableEq α] : DecidableEq (Except ε α) :=
  exceptDecEq

/-- Per matched card environment for the policy fan-out: the HTTPRoute list
result (route names labeled for the card), and the outcomes of the
AuthPolicy, RateLimitPolicy and ConfigMap applies. -/
structure CardApplyEnv where
  routeList : Except K8sErr (List String)
  authApply : ApplyEnv
  rlpApply : ApplyEnv
  cmApply : ApplyEnv
deriving Repr, DecidableEq

/-- Environment of one AgentPolicy reconcile invocation. `cards` is the
platform's answer to listing AgentCards matching the policy selector, each
paired with the outcomes of its downstream calls. -/
structure PolicyEnv where
  fetch : FetchOutcome AgentPolicy
  removeFinErr : Option K8sErr
  addFinErr : Option K8sErr
  cards : Except K8sErr (List (AgentCard × CardApplyEnv))
deriving Repr, DecidableEq

/-- One ready-condition write to the policy status: the matched-card count
and generated list persisted with it, the condition value and its reason. -/
structure PolicyStatusWrite where
  matchedAgentCards : Nat
  generatedResources : List GeneratedResourceRef
  ready : Bool
  reason : String
deriving Repr, DecidableEq

/-- Result of one AgentPolicy reconcile: the operation trace, whether the
reconcile returned an error, and the status writes performed. -/
structure PolicyReconcileOut where
  ops : List Op
  retErr : Bool
  statusWrites : List PolicyStatusWrite
deriving Repr, DecidableEq

/-- One create-or-update attempt inside the policy fan-out, the pattern the
Go code repeats for each downstream kind: on success record the generated
reference; on a swallowed (classifier-matched) error record nothing; on a
Real error record the message. The final flag is false exactly on the Real
error path (the Go continue). -/
def applyStep (resKind name : String) (env : ApplyEnv) (swallow : Option K8sErr → Bool)
    (errMsg : String) : List Op × List GeneratedResourceRef × List String × Bool :=
  let op := applyOpFor resKind name env
  match env.result with
  | none => ([op], [{ kind := resKind, name := name }], [], true)
  | some e =>
    if swallow (some e) then ([op], [], [], true)
    else ([op], [], [errMsg], false)

/-- The body of the per-card loop of the AgentPolicy reconcile: find the
card's HTTPRoute (skip the card when the list fails, accumulating the error,
or when no route exists yet), then apply the AuthPolicy when an ingress
section is present and the RateLimitPolicy when a rate section is present.
A Real error on the AuthPolicy apply accumulates and skips the rest of this
card's body (the Go continue); a no-match error is swallowed. Returns
(ops, generated refs, error messages). -/
def policyCardPass (policy : AgentPolicy) (entry : AgentCard × CardApplyEnv) :
    List Op × List GeneratedResourceRef × List String :=
  let card := entry.1
  let env := entry.2
  match env.routeList with
  | Except.error _ => ([], [], ["failed to list HTTPRoutes for card " ++ card.meta.name])
  | Except.ok routeNames =>
    match routeNames with
    | [] => ([], [], [])
    | httpRouteName :: _ =>
      let authStep : List Op × List GeneratedResourceRef × List String × Bool :=
        match policy.spec.ingress with
        | none => ([], [], [], true)
        | some _ =>
          applyStep "AuthPolicy" (BuildAuthPolicy policy card httpRouteName).meta.name
            env.authApply isCRDNotFoundPolicy
            ("failed to create/update AuthPolicy for card " ++ card.meta.name)
      let rlpStep : List Op × List GeneratedResourceRef × List String × Bool :=
        match policy.spec.rateLimit with
        | none => ([], [], [], true)
        | some _ =>
          applyStep "RateLimitPolicy" (BuildRateLimitPolicy policy card httpRouteName).meta.name
            env.rlpApply isCRDNotFoundPolicy
            ("failed to create/update RateLimitPolicy for card " ++ card.meta.name)
      match authStep with
      | (aOps, aGen, aErrs, cont) =>
        if cont then
          (aOps ++ rlpStep.1, aGen ++ rlpStep.2.1, aErrs ++ rlpStep.2.2.1)
        else (aOps, aGen, aErrs)

/-- The body of the sidecar-ConfigMap loop (run only when an external
section is present): build and apply the ConfigMap for one card; any error
accumulates (no degradation classification on this path). -/
def policyCmPass (policy : AgentPolicy) (entry : AgentCard × CardApplyEnv) :
    List Op × List GeneratedResourceRef × List String :=
  let card := entry.1
  let env := entry.2
  let step :=
    applyStep "ConfigMap" (BuildSidecarConfigMap policy card).meta.name env.cmApply
      (fun _ => false)
      ("failed to create/update sidecar ConfigMap for card " ++ card.meta.name)
  (step.1, step.2.1, step.2.2.1)

/-- The per-card loop: each iteration appends its contributions; iterations
never read the accumulators, so they are independent. -/
def policyLoop (body : (AgentCard × CardApplyEnv) → List Op × List GeneratedResourceRef × List String) :
    List (AgentCard × CardApplyEnv) → List Op × List GeneratedResourceRef × List String
  | [] => ([], [], [])
  | entry :: rest =>
    let h := body entry
    let t := policyLoop body rest
    (h.1 ++ t.1, h.2.1 ++ t.2.1, h.2.2 ++ t.2.2)

/-- `Reconcile` of AgentPolicyReconciler: fetch; finalizer handling (on a
set deletion marker remove the finalizer, if present, and stop); list
matched cards; per-card fan-out; sidecar ConfigMap pass when an external
section is present; then write matched count, generated list and the ready
condition, returning an error iff any Real error accumulated. -/
def reconcilePolicy (env : PolicyEnv) : PolicyReconcileOut :=
  match env.fetch with
  | FetchOutcome.errFetch => { ops := [], retErr := true, statusWrites := [] }
  | FetchOutcome.notFound => { ops := [], retErr := false, statusWrites := [] }
  | FetchOutcome.found policy =>
    if policy.meta.deletionSet then
      if containsFinalizer policy.meta agentPolicyFinalizer then
        { ops := [Op.updatePrimary "AgentPolicy" policy.meta.name],
          retErr := env.removeFinErr.isSome, statusWrites := [] }
      else { ops := [], retErr := false, statusWrites := [] }
    else
      let finOps :=
        if containsFinalizer policy.meta agentPolicyFinalizer then []
        else [Op.updatePrimary "AgentPolicy" policy.meta.name]
      if !containsFinalizer policy.meta agentPolicyFinalizer && env.addFinErr.isSome then
        { ops := finOps, retErr := true, statusWrites := [] }
      else
        match env.cards with
        | Except.error _ =>
          { ops := finOps ++ [Op.statusUpdate "AgentPolicy" policy.meta.name],
            retErr := true,
            statusWrites := [{ matchedAgentCards := policy.status.matchedAgentCards,
                               generatedResources := policy.status.generatedResources,
                               ready := false, reason := "ListCardsFailed" }] }
        | Except.ok cards =>
          let pass1 := policyLoop (policyCardPass policy) cards
          let cmPass :=
            if policy.spec.external.isSome then policyLoop (policyCmPass policy) cards
            else ([], [], [])
          let gen := pass1.2.1 ++ cmPass.2.1
          let errs := pass1.2.2 ++ cmPass.2.2
          let ready := errs.isEmpty
          { ops := finOps ++ pass1.1 ++ cmPass.1 ++ [Op.statusUpdate "AgentPolicy" policy.meta.name],
            retErr := !ready,
            statusWrites := [{ matchedAgentCards := cards.length,
                               generatedResources := gen,
                               ready := ready,
                               reason := if ready then "Reconciled" else "ReconcileErrors" }] }

/-! ## AgentCard reconciler -/

/-- Environment of one AgentCard reconcile invocation. -/
structure CardEnv where
  fetch : FetchOutcome AgentCard
  gatewayName : String
  gatewayNamespace : String
  removeFinErr : Option K8sErr
  addFinErr : Option K8sErr
  routeGet : FetchOutcome Unit
  routeWriteErr : Option K8sErr
  mcpApply : ApplyEnv
deriving Repr, DecidableEq

/-- Result of one AgentCard reconcile: operation trace, error return,
ready-condition writes (value, reason), and the generated route name
recorded in status, if reached. -/
structure CardReconcileOut where
  ops : List Op
  retErr : Bool
  conds : List (Bool × String)
  generatedRoute : Option String
deriving Repr, DecidableEq

/-- The tail of the AgentCard reconcile after the HTTPRoute write succeeded:
the MCPServerRegistration apply (only when "mcp" is among the protocols,
swallowing classifier-matched errors), then the status update. -/
def reconcileCardAfterRoute (env : CardEnv) (card : AgentCard) (routeName : String)
    (prevOps : List Op) : CardReconcileOut :=
  if containsProtocol card.spec.protocols "mcp" then
    let mcpReg := BuildMCPServerRegistration card routeName
    let op := applyOpFor "MCPServerRegistration" mcpReg.meta.name env.mcpApply
    match env.mcpApply.result with
    | some e =>
      if isCRDNotFound (some e) then
        { ops := prevOps ++ [op, Op.statusUpdate "AgentCard" card.meta.name],
          retErr := false, conds := [(true, "Reconciled")], generatedRoute := some routeName }
      else
        { ops := prevOps ++ [op, Op.statusUpdate "AgentCard" card.meta.name],
          retErr := true, conds := [(false, "MCPRegistrationFailed")], generatedRoute := none }
    | none =>
      { ops := prevOps ++ [op, Op.statusUpdate "AgentCard" card.meta.name],
        retErr := false, conds := [(true, "Reconciled")], generatedRoute := some routeName }
  else
    { ops := prevOps ++ [Op.statusUpdate "AgentCard" card.meta.name],
      retErr := false, conds := [(true, "Reconciled")], generatedRoute := some routeName }

/-- `Reconcile` of AgentCardReconciler: fetch; finalizer handling (on a set
deletion marker remove the finalizer, if present, and stop); build the
HTTPRoute; create it when absent or update it when present; then the
MCPServerRegistration step and the status update. -/
def reconcileCard (env : CardEnv) : CardReconcileOut :=
  match env.fetch with
  | FetchOutcome.errFetch => { ops := [], retErr := true, conds := [], generatedRoute := none }
  | FetchOutcome.notFound => { ops := [], retErr := false, conds := [], generatedRoute := none }
  | FetchOutcome.found card =>
    if card.meta.deletionSet then
      if containsFinalizer card.meta agentCardFinalizer then
        { ops := [Op.updatePrimary "AgentCard" card.meta.name],
          retErr := env.removeFinErr.isSome, conds := [], generatedRoute := none }
      else { ops := [], retErr := false, conds := [], generatedRoute := none }
    else
      let finOps :=
        if containsFinalizer card.meta agentCardFinalizer then []
        else [Op.updatePrimary "AgentCard" card.meta.name]
      if !containsFinalizer card.meta agentCardFinalizer && env.addFinErr.isSome then
        { ops := finOps, retErr := true, conds := [], generatedRoute := none }
      else
        let desired := BuildHTTPRoute card env.gatewayName env.gatewayNamespace
        match env.routeGet with
        | FetchOutcome.errFetch =>
          { ops := finOps, retErr := true, conds := [], generatedRoute := none }
        | FetchOutcome.notFound =>
          let op := Op.createRes "HTTPRoute" desired.meta.name
          match env.routeWriteErr with
          | some _ =>
            { ops := finOps ++ [op, Op.statusUpdate "AgentCard" card.meta.name],
              retErr := true, conds := [(false, "HTTPRouteCreateFailed")], generatedRoute := none }
          | none => reconcileCardAfterRoute env card desired.meta.name (finOps ++ [op])
        | FetchOutcome.found _ =>
          let op := Op.updateRes "HTTPRoute" desired.meta.name
          match env.routeWriteErr with
          | some _ =>
            { ops := finOps ++ [op, Op.statusUpdate "AgentCard" card.meta.name],
              retErr := true, conds := [(false, "HTTPRouteUpdateFailed")], generatedRoute := none }
          | none => reconcileCardAfterRoute env card desired.meta.name (finOps ++ [op])

/-- The generated-resource snapshot of a full fan-out over the matched
cards: the per-card auth/rate-limit contributions in card order, then the
sidecar ConfigMap contributions when an external section is present. -/
def fanOutGen (policy : AgentPolicy) (cards : List (AgentCard × CardApplyEnv)) :
    List GeneratedResourceRef :=
  cards.flatMap (fun e => (policyCardPass policy e).2.1)
    ++ (if policy.spec.external.isSome then
          cards.flatMap (fun e => (policyCmPass policy e).2.1) else [])

/-- The Real-error messages collected across a full fan-out; each card's
contribution is a function of that card's entry alone. -/
def fanOutErrs (policy : AgentPolicy) (cards : List (AgentCard × CardApplyEnv)) :
    List String :=
  cards.flatMap (fun e => (policyCardPass policy e).2.2)
    ++ (if policy.spec.external.isSome then
          cards.flatMap (fun e => (policyCmPass policy e).2.2) else [])

/-! ## Concrete sample records (mirroring the fixtures of builders_test.go) -/

/-- Metadata of a sample primary record. -/
def sampleMeta (n : String) : Meta :=
  { name := n, ns := "default", uid := "test-uid", labels := [("tier", "premium")],
    finalizers := [], deletionSet := false, ownerRefs := [] }

/-- The AgentCard fixture of builders_test.go (name "weather", port 9090). -/
def sampleCard : AgentCard :=
  { meta := sampleMeta "weather"
    spec := { description := "Test agent"
              skills := [{ name := "search", description := "Search the web" }]
              protocols := ["a2a", "mcp"]
              servicePort := 9090 } }

/-- A second card with a different name, matched by the same policy. -/
def sampleCardB : AgentCard :=
  { meta := sampleMeta "code-review"
    spec := { description := "Review agent"
              skills := []
              protocols := ["a2a"]
              servicePort := 0 } }

/-- The AgentPolicy fixture of builders_test.go. -/
def samplePolicy : AgentPolicy :=
  { meta := sampleMeta "premium-policy"
    spec := { agentSelector := [("tier", "premium")]
              ingress := some { allowedAgents := ["agent-a", "agent-b"], allowedUsers := ["*"] }
              agents := ["weather-agent"]
              external := some { defaultMode := "deny"
                                 rules := [{ host := "api.example.com", mode := "vault",
                                             vaultPath := "secret/data/api-key", audience := "",
                                             scopes := [], header := "Authorization",
                                             headerPfx := "Bearer " }] }
              rateLimit := some { requestsPerMinute := 100 } }
    status := { matchedAgentCards := 0, generatedResources := [] } }

/-- The policy fixture without a rate section. -/
def samplePolicyNoRate : AgentPolicy :=
  { samplePolicy with
    spec := { samplePolicy.spec with rateLimit := none } }

/-- A successful create-path apply. -/
def applyOk : ApplyEnv := { stored := false, result := none }

/-- A sample desired unstructured value. -/
def sampleDesired : Unstructured :=
  { apiVersion := "kuadrant.io/v1", kind := "AuthPolicy", ns := "default",
    name := "ap-weather", resourceVersion := "", payload := "spec" }

/-- A full-featured policy reconcile environment: one matched card with a
routing record, every downstream apply succeeding. -/
def samplePolicyEnv : PolicyEnv :=
  { fetch := FetchOutcome.found samplePolicy
    removeFinErr := none
    addFinErr := none
    cards := Except.ok [(sampleCard,
      { routeList := Except.ok ["agent-weather"], authApply := applyOk,
        rlpApply := applyOk, cmApply := applyOk })] }

/-- The matched-card list of samplePolicyEnv, with the AuthPolicy apply
failing with a NotFound error. -/
def sampleCardsAuthNotFound : List (AgentCard × CardApplyEnv) :=
  [(sampleCard,
    { routeList := Except.ok ["agent-weather"]
      authApply := { stored := false, result := some K8sErr.notFound }
      rlpApply := applyOk, cmApply := applyOk })]

/-- A card reconcile environment for sampleCard where the tool-registration
apply fails with a NotFound error. -/
def sampleCardEnvMcpNotFound : CardEnv :=
  { fetch := FetchOutcome.found sampleCard
    gatewayName := "my-gateway"
    gatewayNamespace := "gateway-ns"
    removeFinErr := none
    addFinErr := none
    routeGet := FetchOutcome.notFound
    routeWriteErr := none
    mcpApply := { stored := false, result := some K8sErr.notFound } }

/-! # Helper lemmas -/

theorem applyOpFor_writeKind (k n : String) (env : ApplyEnv) :
    (applyOpFor k n env).writeKind = some k := by
  rcases env with ⟨st, res⟩
  cases st <;> rfl

theorem applyOpFor_not_delete (k n : String) (env : ApplyEnv) :
    (applyOpFor k n env).isDelete = false := by
  rcases env with ⟨st, res⟩
  cases st <;> rfl

theorem applyStep_ops (k n : String) (env : ApplyEnv) (sw : Option K8sErr → Bool)
    (m : String) : (applyStep k n env sw m).1 = [applyOpFor k n env] := by
  unfold applyStep
  rcases env with ⟨st, res⟩
  cases res with
  | none => rfl
  | some e => by_cases h : sw (some e) = true <;> simp [h]

theorem policyCardPass_ops_all (policy : AgentPolicy) (entry : AgentCard × CardApplyEnv)
    (p : Op → Bool)
    (h1 : ∀ n env, p (applyOpFor "AuthPolicy" n env) = true)
    (h2 : ∀ n env, p (applyOpFor "RateLimitPolicy" n env) = true) :
    ((policyCardPass policy entry).1).all p = true := by
  rcases entry with ⟨card, env⟩
  rcases env with ⟨rl, ae, re, ce⟩
  cases rl with
  | error e => simp [policyCardPass]
  | ok names =>
    cases names with
    | nil => simp [policyCardPass]
    | cons rn rest =>
      rcases ae with ⟨ast, ares⟩
      rcases re with ⟨rst, rres⟩
      cases hi : policy.spec.ingress <;> cases hrl : policy.spec.rateLimit <;>
        cases ares <;> cases rres <;>
          simp [policyCardPass, applyStep, hi, hrl, h1, h2, List.all_append] <;>
          (try split) <;> simp [h1, h2, List.all_append] <;>
          (try split) <;> simp [h1, h2, List.all_append]

theorem policyCmPass_ops_all (policy : AgentPolicy) (entry : AgentCard × CardApplyEnv)
    (p : Op → Bool)
    (h3 : ∀ n env, p (applyOpFor "ConfigMap" n env) = true) :
    ((policyCmPass policy entry).1).all p = true := by
  rcases entry with ⟨card, env⟩
  simp [policyCmPass, applyStep_ops, h3]

theorem policyLoop_eq
    (body : (AgentCard × CardApplyEnv) → List Op × List GeneratedResourceRef × List String)
    (l : List (AgentCard × CardApplyEnv)) :
    policyLoop body l
      = (l.flatMap (fun e => (body e).1), l.flatMap (fun e => (body e).2.1),
         l.flatMap (fun e => (body e).2.2)) := by
  induction l with
  | nil => rfl
  | cons hd t ih => simp [policyLoop, ih]

theorem policyLoop_ops_all
    (body : (AgentCard × CardApplyEnv) → List Op × List GeneratedResourceRef × List String)
    (l : List (AgentCard × CardApplyEnv)) (p : Op → Bool)
    (h : ∀ e, ((body e).1).all p = true) :
    ((policyLoop body l).1).all p = true := by
  induction l with
  | nil => rfl
  | cons hd t ih => simp [policyLoop, List.all_append, h, ih]

theorem reconcilePolicy_ops_all (env : PolicyEnv) (p : Op → Bool)
    (hup : ∀ n, p (Op.updatePrimary "AgentPolicy" n) = true)
    (hst : ∀ n, p (Op.statusUpdate "AgentPolicy" n) = true)
    (h1 : ∀ n e, p (applyOpFor "AuthPolicy" n e) = true)
    (h2 : ∀ n e, p (applyOpFor "RateLimitPolicy" n e) = true)
    (h3 : ∀ n e, p (applyOpFor "ConfigMap" n e) = true) :
    ((reconcilePolicy env).ops).all p = true := by
  rcases env with ⟨f, rfe, afe, cl⟩
  cases f with
  | errFetch => rfl
  | notFound => rfl
  | found policy =>
    unfold reconcilePolicy
    by_cases hdel : policy.meta.deletionSet = true
    · simp only [hdel]
      by_cases hfin : containsFinalizer policy.meta agentPolicyFinalizer = true <;>
        simp [hfin, hup]
    · simp only [Bool.not_eq_true] at hdel
      simp only [hdel]
      by_cases hfin : containsFinalizer policy.meta agentPolicyFinalizer = true <;>
      · simp only [hfin]
        cases hcl : cl with
        | error e =>
          cases afe <;> simp [hfin, hup, hst, List.all_append]
        | ok cards =>
          have hc := policyLoop_ops_all (policyCardPass policy) cards p
            (fun e => policyCardPass_ops_all policy e p h1 h2)
          have hcm := policyLoop_ops_all (policyCmPass policy) cards p
            (fun e => policyCmPass_ops_all policy e p h3)
          cases afe <;>
            by_cases hext : policy.spec.external.isSome = true <;>
              simp [hfin, hext, hup, hst, hc, hcm, List.all_append]

theorem reconcileCardAfterRoute_ops_all (env : CardEnv) (card : AgentCard)
    (routeName : String) (prevOps : List Op) (p : Op → Bool)
    (hprev : prevOps.all p = true)
    (hst : ∀ n, p (Op.statusUpdate "AgentCard" n) = true)
    (hm : ∀ n e, p (applyOpFor "MCPServerRegistration" n e) = true) :
    ((reconcileCardAfterRoute env card routeName prevOps).ops).all p = true := by
  unfold reconcileCardAfterRoute
  by_cases hp : containsProtocol card.spec.protocols "mcp" = true
  · simp only [hp]
    cases hres : env.mcpApply.result with
    | none => simp [List.all_append, hprev, hst, hm]
    | some e =>
      by_cases hsw : isCRDNotFound (some e) = true <;>
        simp [hsw, List.all_append, hprev, hst, hm]
  · simp only [Bool.not_eq_true] at hp
    simp [hp, List.all_append, hprev, hst]

theorem reconcileCard_ops_all (env : CardEnv) (p : Op → Bool)
    (hup : ∀ n, p (Op.updatePrimary "AgentCard" n) = true)
    (hst : ∀ n, p (Op.statusUpdate "AgentCard" n) = true)
    (hcr : ∀ n, p (Op.createRes "HTTPRoute" n) = true)
    (hur : ∀ n, p (Op.updateRes "HTTPRoute" n) = true)
    (hm : ∀ n e, p (applyOpFor "MCPServerRegistration" n e) = true) :
    ((reconcileCard env).ops).all p = true := by
  unfold reconcileCard
  cases hf : env.fetch with
  | errFetch => simp
  | notFound => simp
  | found card =>
    have hfo : (if containsFinalizer card.meta agentCardFinalizer then ([] : List Op)
        else [Op.updatePrimary "AgentCard" card.meta.name]).all p = true := by
      by_cases hf2 : containsFinalizer card.meta agentCardFinalizer = true <;> simp [hf2, hup]
    by_cases hdel : card.meta.deletionSet = true
    · simp only [hdel, if_true]
      by_cases hfin : containsFinalizer card.meta agentCardFinalizer = true <;>
        simp [hfin, hup]
    · simp only [Bool.not_eq_true] at hdel
      simp only [hdel, Bool.false_eq_true, if_false]
      by_cases hcond : (!containsFinalizer card.meta agentCardFinalizer
          && env.addFinErr.isSome) = true
      · simp only [hcond, if_true]
        exact hfo
      · simp only [hcond, Bool.false_eq_true, if_false]
        cases hrg : env.routeGet with
        | errFetch => exact hfo
        | notFound =>
          cases hrwe : env.routeWriteErr with
          | some e => simp [List.all_append, hfo, hst, hcr]
          | none =>
            exact reconcileCardAfterRoute_ops_all env card
              (BuildHTTPRoute card env.gatewayName env.gatewayNamespace).meta.name _ p
              (by simp [List.all_append, hfo, hcr]) hst hm
        | found u =>
          cases hrwe : env.routeWriteErr with
          | some e => simp [List.all_append, hfo, hst, hur]
          | none =>
            exact reconcileCardAfterRoute_ops_all env card
              (BuildHTTPRoute card env.gatewayName env.gatewayNamespace).meta.name _ p
              (by simp [List.all_append, hfo, hur]) hst hm

/-! # Claim theorems -/

/-- C3 counterexample: at object labels `{}` and selector `{a: ""}` the
matcher returns true although the key "a" is not present in the object's
labels (Go's zero-value lookup makes an absent key read as ""), so "true
iff every selector key is present with an equal value" fails, as does
"a key absent from the object's labels counts as a non-match". -/
theorem labelsMatchSelector_absent_empty_matches :
    labelsMatchSelector [] [("a", "")] = true ∧ lookupKey [] "a" = none := by
  constructor
  · rfl
  · rfl

/-- C3 (amended): the matcher returns true iff every selector entry equals
the Go zero-value lookup of its key in the object labels; a selector key
with a non-empty value must therefore be present with an equal value, while
a selector key with value "" also matches an absent key. The empty selector
matches everything, extra object labels are ignored, and the four concrete
examples of the spec hold. -/
theorem labelsMatchSelector_spec :
    (∀ objectLabels selectorLabels : Labels,
        labelsMatchSelector objectLabels selectorLabels = true ↔
          ∀ p ∈ selectorLabels, lookupGo objectLabels p.1 = p.2) ∧
    labelsMatchSelector [("tier", "premium"), ("region", "us-east")] [("tier", "premium")] = true ∧
    labelsMatchSelector [("tier", "premium"), ("region", "us-east")] [] = true ∧
    labelsMatchSelector [("tier", "premium"), ("region", "us-east")] [("tier", "standard")] = false ∧
    labelsMatchSelector [("tier", "premium"), ("region", "us-east")] [("missing", "label")] = false := by
  refine ⟨?_, by decide, by decide, by decide, by decide⟩
  intro objectLabels selectorLabels
  simp [labelsMatchSelector, List.all_eq_true]

/-- C3 witness: the amended equivalence evaluated at a concrete object and
selector. -/
theorem labelsMatchSelector_spec_witness :
    labelsMatchSelector [("tier", "premium"), ("region", "us-east")] [("region", "us-east")] = true :=
  (labelsMatchSelector_spec.1 [("tier", "premium"), ("region", "us-east")]
    [("region", "us-east")]).mpr (by decide)

/-- C4: for a policy with an ingress section, the synthesized auth record
carries exactly one equality predicate per allowed-caller entry, each on
selector auth.identity.sub with the resolved account value; an empty
allowed-caller list yields zero predicates; and the two account-resolution
examples hold. -/
theorem BuildAuthPolicy_predicates (policy : AgentPolicy) (card : AgentCard) (rn : String)
    (ing : IngressPolicy) (h : policy.spec.ingress = some ing) :
    (BuildAuthPolicy policy card rn).patterns
      = ing.allowedAgents.map (fun agent =>
          { selector := "auth.identity.sub", operator := "eq",
            value := resolveServiceAccount agent policy.meta.ns }) ∧
    (BuildAuthPolicy policy card rn).patterns.length = ing.allowedAgents.length ∧
    (ing.allowedAgents = [] → (BuildAuthPolicy policy card rn).patterns = []) ∧
    resolveServiceAccount "orchestrator" "default"
      = "system:serviceaccount:default:orchestrator" ∧
    resolveServiceAccount "other-ns/planner" "default"
      = "system:serviceaccount:other-ns:planner" := by
  refine ⟨?_, ?_, ?_, by decide, by decide⟩
  · simp [BuildAuthPolicy, h]
  · simp [BuildAuthPolicy, h]
  · intro he
    simp [BuildAuthPolicy, h, he]

/-- C4 witness: the predicate list of the sample policy (two allowed
callers, both short names resolved in the policy namespace). -/
theorem BuildAuthPolicy_predicates_witness :
    (BuildAuthPolicy samplePolicy sampleCard "agent-weather").patterns
      = [{ selector := "auth.identity.sub", operator := "eq",
           value := "system:serviceaccount:default:agent-a" },
         { selector := "auth.identity.sub", operator := "eq",
           value := "system:serviceaccount:default:agent-b" }] := by
  have h := BuildAuthPolicy_predicates samplePolicy sampleCard "agent-weather"
    { allowedAgents := ["agent-a", "agent-b"], allowedUsers := ["*"] } rfl
  rw [h.1]
  decide

/-- C7: the routing record is named agent-{identityName}, matches the path
PathPrefix /agents/{identityName}, forwards to service {identityName}-svc
on servicePort (8080 when zero), and carries a parent reference to the
configured gateway name and namespace; concretely, servicePort 0 yields
backend port 8080 and servicePort 9090 yields 9090. -/
theorem BuildHTTPRoute_spec (card : AgentCard) (gatewayName gatewayNamespace : String) :
    (BuildHTTPRoute card gatewayName gatewayNamespace).meta.name
      = "agent-" ++ card.meta.name ∧
    (BuildHTTPRoute card gatewayName gatewayNamespace).spec.parentRefs
      = [{ group := "gateway.networking.k8s.io", kind := "Gateway",
           ns := gatewayNamespace, name := gatewayName }] ∧
    (BuildHTTPRoute card gatewayName gatewayNamespace).spec.rules
      = [{ ruleMatches := [{ matchType := "PathPrefix",
                             value := "/agents/" ++ card.meta.name }]
           backendRefs := [{ name := card.meta.name ++ "-svc",
                             port := if card.spec.servicePort == 0 then 8080
                                     else card.spec.servicePort }] }] ∧
    ((BuildHTTPRoute sampleCardB "g" "n").spec.rules.map
      (fun r => r.backendRefs.map (fun b => b.port))) = [[8080]] ∧
    ((BuildHTTPRoute sampleCard "g" "n").spec.rules.map
      (fun r => r.backendRefs.map (fun b => b.port))) = [[9090]] :=
  ⟨rfl, rfl, rfl, by decide, by decide⟩

/-- C8: the rate-limit record targets the passed routing-record name and
contains exactly one rate rule with window "1m" and the policy's
requests-per-minute, defaulting to 60 when the rate section is absent;
concretely, no rate section yields 60 and requestsPerMinute 100 yields
100. -/
theorem BuildRateLimitPolicy_spec (policy : AgentPolicy) (card : AgentCard) (rn : String) :
    (BuildRateLimitPolicy policy card rn).targetRefKind = "HTTPRoute" ∧
    (BuildRateLimitPolicy policy card rn).targetRefName = rn ∧
    (BuildRateLimitPolicy policy card rn).rates
      = [{ limit := match policy.spec.rateLimit with
                    | some rl => rl.requestsPerMinute
                    | none => 60
           window := "1m" }] ∧
    (BuildRateLimitPolicy samplePolicyNoRate sampleCard "r").rates
      = [{ limit := 60, window := "1m" }] ∧
    (BuildRateLimitPolicy samplePolicy sampleCard "r").rates
      = [{ limit := 100, window := "1m" }] :=
  ⟨rfl, rfl, rfl, by decide, by decide⟩

/-- C9 counterexample: two auth records synthesized for the same policy and
two different cards have the same owning parent name (the policy name) and
the same kind, yet different record names, so a downstream record's name is
not a pure function of its parent's name and kind (the name derives from
the identity record, while the parent of auth records is the policy). -/
theorem authPolicy_name_not_function_of_parent :
    ((BuildAuthPolicy samplePolicy sampleCard "r").meta.ownerRefs.map (fun o => o.name)
      = (BuildAuthPolicy samplePolicy sampleCardB "r").meta.ownerRefs.map (fun o => o.name)) ∧
    (BuildAuthPolicy samplePolicy sampleCard "r").kind
      = (BuildAuthPolicy samplePolicy sampleCardB "r").kind ∧
    (((BuildAuthPolicy samplePolicy sampleCard "r").meta.name
       == (BuildAuthPolicy samplePolicy sampleCardB "r").meta.name) = false) := by
  refine ⟨rfl, rfl, by decide⟩

/-- C9 (amended): every downstream record's name is a pure function of the
identity record's name and the record's kind, with the fixed prefixes
agent-, ap-, rlp-, sidecar-config- and mcp-, and synthesizing any record
twice from unchanged inputs yields identical desired values. -/
theorem downstream_naming_deterministic (policy : AgentPolicy) (card : AgentCard)
    (gatewayName gatewayNamespace rn : String) :
    (BuildHTTPRoute card gatewayName gatewayNamespace).meta.name
      = "agent-" ++ card.meta.name ∧
    (BuildAuthPolicy policy card rn).meta.name = "ap-" ++ card.meta.name ∧
    (BuildRateLimitPolicy policy card rn).meta.name = "rlp-" ++ card.meta.name ∧
    (BuildSidecarConfigMap policy card).meta.name = "sidecar-config-" ++ card.meta.name ∧
    (BuildMCPServerRegistration card rn).meta.name = "mcp-" ++ card.meta.name ∧
    BuildHTTPRoute card gatewayName gatewayNamespace
      = BuildHTTPRoute card gatewayName gatewayNamespace ∧
    BuildAuthPolicy policy card rn = BuildAuthPolicy policy card rn ∧
    BuildRateLimitPolicy policy card rn = BuildRateLimitPolicy policy card rn ∧
    BuildSidecarConfigMap policy card = BuildSidecarConfigMap policy card ∧
    BuildMCPServerRegistration card rn = BuildMCPServerRegistration card rn :=
  ⟨rfl, rfl, rfl, rfl, rfl, rfl, rfl, rfl, rfl, rfl⟩

/-- C1 counterexample: applying the same desired value twice from the empty
store issues two writes (a create then an update); the second apply is an
update, not a detected no-op. -/
theorem applyTwice_two_writes :
    (applyTwice [] sampleDesired).1 = WriteAction.created ∧
    (applyTwice [] sampleDesired).2 = WriteAction.updated ∧
    (((applyTwice [] sampleDesired).2 == WriteAction.skipped) = false) ∧
    writeCount (applyTwice [] sampleDesired) = 2 := by
  refine ⟨rfl, rfl, rfl, rfl⟩

/-- C1 (amended): the create-or-update layer creates the record when no
stored record with its (apiVersion, kind, namespace, name) key exists;
when one exists it updates unconditionally, copying the stored version
token onto the desired value, with no semantic comparison — so applying
the same desired value twice always issues two writes. -/
theorem createOrUpdate_always_writes (store : List Unstructured) (desired : Unstructured) :
    (store.find? (fun o => sameKey o desired) = none →
        createOrUpdateUnstructured store desired
          = (store ++ [desired], WriteAction.created)) ∧
    (∀ existing, store.find? (fun o => sameKey o desired) = some existing →
        createOrUpdateUnstructured store desired
          = (store.map (fun o => if sameKey o desired then
               { desired with resourceVersion := existing.resourceVersion } else o),
             WriteAction.updated)) ∧
    writeCount (applyTwice store desired) = 2 := by
  have hw : ∀ s : List Unstructured, ((createOrUpdateUnstructured s desired).2).isWrite = true := by
    intro s
    unfold createOrUpdateUnstructured
    cases s.find? (fun o => sameKey o desired) <;> rfl
  refine ⟨?_, ?_, ?_⟩
  · intro h
    simp [createOrUpdateUnstructured, h]
  · intro existing h
    simp [createOrUpdateUnstructured, h]
  · unfold applyTwice writeCount
    simp [hw]

/-- C1 witness: the amended theorem at the empty store and a concrete
desired value. -/
theorem createOrUpdate_always_writes_witness :
    createOrUpdateUnstructured [] sampleDesired
      = ([sampleDesired], WriteAction.created) ∧
    writeCount (applyTwice [] sampleDesired) = 2 :=
  ⟨(createOrUpdate_always_writes [] sampleDesired).1 rfl,
   (createOrUpdate_always_writes [] sampleDesired).2.2⟩

/-- C2 counterexample: a full-featured policy reconcile (ingress, rate and
external sections present, one matched card with a routing record, all
applies succeeding) performs downstream writes but none of kind
NetworkPolicy — the engine never applies the egress-control record. -/
theorem reconcile_emits_no_egress_record :
    ((reconcilePolicy samplePolicyEnv).ops.filter
        (fun op => op.writeKind == some "NetworkPolicy")) = [] ∧
    ((reconcilePolicy samplePolicyEnv).ops.any (fun op => op.isDownstreamWrite)) = true := by
  refine ⟨by decide, by decide⟩

/-- C2 (amended): the egress-control builder selects pods by the identity
record's name label and always emits exactly two egress rules — UDP+TCP
port 53 unconditionally, and any-namespace in-cluster egress — with a value
independent of the policy's content; but no reconcile of either engine ever
writes a record of that kind. -/
theorem networkPolicy_shape_never_applied (policy policyB : AgentPolicy) (card : AgentCard)
    (penv : PolicyEnv) (cenv : CardEnv) :
    (BuildNetworkPolicy policy card).spec.podSelector
      = [("kagenti.com/agent-card", card.meta.name)] ∧
    (BuildNetworkPolicy policy card).spec.egress
      = [{ ports := [{ port := 53, protocol := "UDP" }, { port := 53, protocol := "TCP" }],
           toPeers := [] },
         { ports := [], toPeers := [{ namespaceSelector := some [] }] }] ∧
    (BuildNetworkPolicy policy card).spec = (BuildNetworkPolicy policyB card).spec ∧
    ((reconcilePolicy penv).ops.all (fun op => !(op.writeKind == some "NetworkPolicy"))) = true ∧
    ((reconcileCard cenv).ops.all (fun op => !(op.writeKind == some "NetworkPolicy"))) = true := by
  refine ⟨rfl, rfl, rfl, ?_, ?_⟩
  · exact reconcilePolicy_ops_all penv _ (fun n => rfl) (fun n => rfl)
      (fun n e => by simp [applyOpFor_writeKind])
      (fun n e => by simp [applyOpFor_writeKind])
      (fun n e => by simp [applyOpFor_writeKind])
  · exact reconcileCard_ops_all cenv _ (fun n => rfl) (fun n => rfl) (fun n => rfl)
      (fun n => rfl) (fun n e => by simp [applyOpFor_writeKind])

/-- C5: on a fan-out reconcile of a live policy, the generated-resource
snapshot and the error list are per-card concatenations (so a Real error on
one matched card leaves every other card's processing unchanged), the
status write always carries the matched-card count and the latest generated
snapshot — also when the reconcile fails — the ready condition is true
exactly when no Real error accumulated, and the reconcile returns a failure
exactly when one did; the error and snapshot lists decompose around any one
card. -/
theorem policy_fanout_partial_failure (policy : AgentPolicy)
    (cards : List (AgentCard × CardApplyEnv)) (rfe : Option K8sErr)
    (h : policy.meta.deletionSet = false) :
    (reconcilePolicy { fetch := FetchOutcome.found policy, removeFinErr := rfe,
                       addFinErr := none, cards := Except.ok cards }).statusWrites
      = [{ matchedAgentCards := cards.length,
           generatedResources := fanOutGen policy cards,
           ready := (fanOutErrs policy cards).isEmpty,
           reason := if (fanOutErrs policy cards).isEmpty then "Reconciled"
                     else "ReconcileErrors" }] ∧
    (reconcilePolicy { fetch := FetchOutcome.found policy, removeFinErr := rfe,
                       addFinErr := none, cards := Except.ok cards }).retErr
      = !(fanOutErrs policy cards).isEmpty ∧
    (∀ (pre post : List (AgentCard × CardApplyEnv)) (entry : AgentCard × CardApplyEnv),
        fanOutErrs policy (pre ++ entry :: post)
          = (pre.flatMap (fun e => (policyCardPass policy e).2.2)
              ++ (policyCardPass policy entry).2.2
              ++ post.flatMap (fun e => (policyCardPass policy e).2.2))
            ++ (if policy.spec.external.isSome then
                  pre.flatMap (fun e => (policyCmPass policy e).2.2)
                    ++ (policyCmPass policy entry).2.2
                    ++ post.flatMap (fun e => (policyCmPass policy e).2.2)
                else [])) := by
  have h1 := policyLoop_eq (policyCardPass policy) cards
  have h2 := policyLoop_eq (policyCmPass policy) cards
  refine ⟨?_, ?_, ?_⟩
  · cases hext : policy.spec.external.isSome <;>
      simp only [reconcilePolicy, h, hext, h1, h2, fanOutGen, fanOutErrs,
        Bool.false_eq_true, if_false, if_true, Option.isSome_none, Bool.and_false,
        Bool.false_and, and_false]
  · cases hext : policy.spec.external.isSome <;>
      simp only [reconcilePolicy, h, hext, h1, h2, fanOutErrs,
        Bool.false_eq_true, if_false, if_true, Option.isSome_none, Bool.and_false,
        Bool.false_and, and_false]
  · intro pre post entry
    simp [fanOutErrs, List.flatMap_append, List.flatMap_cons, List.append_assoc]

/-- C5 witness: the theorem at the sample policy with one matched card
whose AuthPolicy apply fails with a NotFound error. -/
theorem policy_fanout_partial_failure_witness :
    (reconcilePolicy { fetch := FetchOutcome.found samplePolicy, removeFinErr := none,
                       addFinErr := none,
                       cards := Except.ok sampleCardsAuthNotFound }).retErr
      = !(fanOutErrs samplePolicy sampleCardsAuthNotFound).isEmpty :=
  (policy_fanout_partial_failure samplePolicy sampleCardsAuthNotFound none rfl).2.1

/-- C6: a reconcile of a deletion-marked policy or identity record only
removes the finalizer when present (one primary update, no downstream write,
no status write), and no reconcile of either engine ever issues an explicit
delete of a downstream record. -/
theorem deletion_no_cleanup_no_delete (policy : AgentPolicy) (card : AgentCard)
    (rfe afe : Option K8sErr) (cl : Except K8sErr (List (AgentCard × CardApplyEnv)))
    (gw gwNs : String) (rg : FetchOutcome Unit) (rwe : Option K8sErr) (me : ApplyEnv)
    (penv : PolicyEnv) (cenv : CardEnv) :
    (reconcilePolicy { fetch := FetchOutcome.found
                         { policy with meta := { policy.meta with deletionSet := true } },
                       removeFinErr := rfe, addFinErr := afe, cards := cl }).ops
      = (if containsFinalizer policy.meta agentPolicyFinalizer
         then [Op.updatePrimary "AgentPolicy" policy.meta.name] else []) ∧
    (reconcilePolicy { fetch := FetchOutcome.found
                         { policy with meta := { policy.meta with deletionSet := true } },
                       removeFinErr := rfe, addFinErr := afe, cards := cl }).statusWrites
      = [] ∧
    (reconcileCard { fetch := FetchOutcome.found
                       { card with meta := { card.meta with deletionSet := true } },
                     gatewayName := gw, gatewayNamespace := gwNs, removeFinErr := rfe,
                     addFinErr := afe, routeGet := rg, routeWriteErr := rwe,
                     mcpApply := me }).ops
      = (if containsFinalizer card.meta agentCardFinalizer
         then [Op.updatePrimary "AgentCard" card.meta.name] else []) ∧
    (reconcileCard { fetch := FetchOutcome.found
                       { card with meta := { card.meta with deletionSet := true } },
                     gatewayName := gw, gatewayNamespace := gwNs, removeFinErr := rfe,
                     addFinErr := afe, routeGet := rg, routeWriteErr := rwe,
                     mcpApply := me }).conds
      = [] ∧
    ((reconcilePolicy penv).ops.all (fun op => !op.isDelete)) = true ∧
    ((reconcileCard cenv).ops.all (fun op => !op.isDelete)) = true := by
  have hpfin : containsFinalizer { policy.meta with deletionSet := true } agentPolicyFinalizer
      = containsFinalizer policy.meta agentPolicyFinalizer := rfl
  have hcfin : containsFinalizer { card.meta with deletionSet := true } agentCardFinalizer
      = containsFinalizer card.meta agentCardFinalizer := rfl
  refine ⟨?_, ?_, ?_, ?_, ?_, ?_⟩
  · by_cases hfin : containsFinalizer policy.meta agentPolicyFinalizer = true <;>
      simp [reconcilePolicy, hpfin, hfin]
  · by_cases hfin : containsFinalizer policy.meta agentPolicyFinalizer = true <;>
      simp [reconcilePolicy, hpfin, hfin]
  · by_cases hfin : containsFinalizer card.meta agentCardFinalizer = true <;>
      simp [reconcileCard, hcfin, hfin]
  · by_cases hfin : containsFinalizer card.meta agentCardFinalizer = true <;>
      simp [reconcileCard, hcfin, hfin]
  · exact reconcilePolicy_ops_all penv _ (fun n => rfl) (fun n => rfl)
      (fun n e => by simp [applyOpFor_not_delete])
      (fun n e => by simp [applyOpFor_not_delete])
      (fun n e => by simp [applyOpFor_not_delete])
  · exact reconcileCard_ops_all cenv _ (fun n => rfl) (fun n => rfl) (fun n => rfl)
      (fun n => rfl) (fun n e => by simp [applyOpFor_not_delete])

/-- C10: the identity-record engine's classifier swallows both no-match and
NotFound errors while the policy-record engine's swallows only no-match; a
tool-registration write failing with either swallowed class still yields a
successful reconcile with a true Ready condition, whereas an AuthPolicy
write failing with NotFound accumulates as a Real error and fails the
policy reconcile. -/
theorem degradation_classification (card : AgentCard) (gw gwNs : String) (st ast : Bool)
    (policy : AgentPolicy) (ing : IngressPolicy) (rn : String)
    (renv cenv2 : ApplyEnv) (e : K8sErr)
    (hmcp : containsProtocol card.spec.protocols "mcp" = true)
    (hdel : card.meta.deletionSet = false)
    (hsw : isCRDNotFound (some e) = true)
    (hing : policy.spec.ingress = some ing)
    (hpdel : policy.meta.deletionSet = false) :
    isCRDNotFound (some K8sErr.noMatch) = true ∧
    isCRDNotFound (some K8sErr.notFound) = true ∧
    isCRDNotFoundPolicy (some K8sErr.noMatch) = true ∧
    isCRDNotFoundPolicy (some K8sErr.notFound) = false ∧
    (reconcileCard { fetch := FetchOutcome.found card, gatewayName := gw,
                     gatewayNamespace := gwNs, removeFinErr := none, addFinErr := none,
                     routeGet := FetchOutcome.notFound, routeWriteErr := none,
                     mcpApply := { stored := st, result := some e } }).retErr = false ∧
    (reconcileCard { fetch := FetchOutcome.found card, gatewayName := gw,
                     gatewayNamespace := gwNs, removeFinErr := none, addFinErr := none,
                     routeGet := FetchOutcome.notFound, routeWriteErr := none,
                     mcpApply := { stored := st, result := some e } }).conds
      = [(true, "Reconciled")] ∧
    (reconcilePolicy { fetch := FetchOutcome.found policy, removeFinErr := none,
                       addFinErr := none,
                       cards := Except.ok [(card,
                         { routeList := Except.ok [rn],
                           authApply := { stored := ast, result := some K8sErr.notFound },
                           rlpApply := renv, cmApply := cenv2 })] }).retErr = true := by
  refine ⟨rfl, rfl, rfl, rfl, ?_, ?_, ?_⟩
  · simp [reconcileCard, reconcileCardAfterRoute, hdel, hmcp, hsw]
  · simp [reconcileCard, reconcileCardAfterRoute, hdel, hmcp, hsw]
  · simp [reconcilePolicy, hpdel, policyLoop, policyCardPass, policyCmPass, applyStep,
          hing, isCRDNotFoundPolicy]

/-- C10 witness: the theorem at the sample card (protocols include "mcp")
with a NotFound tool-registration failure, and the sample policy with a
NotFound AuthPolicy failure. -/
theorem degradation_classification_witness :
    (reconcileCard sampleCardEnvMcpNotFound).retErr = false ∧
    (reconcilePolicy { fetch := FetchOutcome.found samplePolicy, removeFinErr := none,
                       addFinErr := none,
                       cards := Except.ok sampleCardsAuthNotFound }).retErr = true := by
  have h := degradation_classification sampleCard "my-gateway" "gateway-ns" false false
    samplePolicy { allowedAgents := ["agent-a", "agent-b"], allowedUsers := ["*"] }
    "agent-weather" applyOk applyOk K8sErr.notFound (by decide) rfl (by decide) rfl rfl
  exact ⟨h.2.2.2.2.1, h.2.2.2.2.2.2⟩

end AgentAccessControl
